import Mathlib

/-!
Verification of the `enforce-doc-labels` webhook receiver (`main.go`).

The program is a single-file Go microservice: it validates the
`X-Hub-Signature` HMAC-SHA1 header of an inbound GitHub webhook, decodes the
body into an issue event, and, when the issue is closed without one of the two
documentation-impact labels, posts a comment and reopens the issue through the
GitHub API.

Embedding conventions:
  - Bytes are `Nat` values below 256; byte strings are `List Nat`.
  - Go strings are Lean `String`s; `[]byte(s)` is `strBytes s` (codepoint
    list; the strings compared here are ASCII, where this coincides with the
    UTF-8 bytes, and the map is injective so equality is preserved anyway).
  - The Go header map `map[string][]string` is an association list
    `List (String × List String)`; Go's unspecified map iteration order is
    determinized to list order (the loop in `validateHeaderSig` takes the
    first entry whose canonicalized key matches).
  - `crypto/sha1` and `crypto/hmac` are embedded concretely (`sha1`,
    `hmacSha1`).  Per the `hash.Hash` contract, `mac.Write` never returns an
    error, so the dead error branch of `validateHeaderSig` is represented by
    `macWriteError = none`.
  - The GitHub remote (`client.Issues.CreateComment` / `client.Issues.Edit`)
    is an oracle `APIBehavior` giving each call's error outcome; the calls a
    run performs are returned as a trace.
  - `json.Decoder.Decode` is external library code; its outcome on the body
    is carried as request data (`decodeResult`), and the receiver records in
    its result whether the decode step was reached.
  - Go nil-pointer dereferences (`event.Issue` on a nil event,
    `*event.Issue.State` on a nil state) are modeled by the `panicked` flag
    of the receiver result.
-/

namespace EnforceDocLabels

/-! ## Bytes, words and SHA-1 (crypto/sha1) -/

/-- Truncate to a 32-bit word. -/
def w32 (n : Nat) : Nat := n % 4294967296

/-- Rotate a 32-bit word left by `s` bits (`0 < s < 32`, word below `2^32`). -/
def rotl32 (s n : Nat) : Nat := w32 (n * 2 ^ s) + n / 2 ^ (32 - s)

/-- Big-endian bytes (4) of a 32-bit word. -/
def beBytes4 (n : Nat) : List Nat :=
  [n / 2 ^ 24 % 256, n / 2 ^ 16 % 256, n / 2 ^ 8 % 256, n % 256]

/-- Big-endian bytes (8) of a 64-bit length field. -/
def beBytes8 (n : Nat) : List Nat :=
  [n / 2 ^ 56 % 256, n / 2 ^ 48 % 256, n / 2 ^ 40 % 256, n / 2 ^ 32 % 256,
   n / 2 ^ 24 % 256, n / 2 ^ 16 % 256, n / 2 ^ 8 % 256, n % 256]

/-- Group bytes into big-endian 32-bit words. -/
def bytesToWords : List Nat → List Nat
  | a :: b :: c :: d :: rest => (((a * 256 + b) * 256 + c) * 256 + d) :: bytesToWords rest
  | _ => []

/-- Split a byte list into 64-byte blocks; the fuel (an upper bound on the
number of blocks, decreasing structurally) keeps the recursion kernel-reducible. -/
def chunks64Go : Nat → List Nat → List (List Nat)
  | _, [] => []
  | 0, l => [l]
  | fuel + 1, x :: rest => (x :: rest.take 63) :: chunks64Go fuel (rest.drop 63)

/-- Split a byte list into 64-byte blocks. -/
def chunks64 (l : List Nat) : List (List Nat) := chunks64Go l.length l

/-- SHA-1 padding: `0x80`, zeros to 56 mod 64, then the bit length big-endian. -/
def sha1Pad (msg : List Nat) : List Nat :=
  msg ++ 128 :: List.replicate ((120 - (msg.length + 1) % 64) % 64) 0
      ++ beBytes8 (msg.length * 8)

/-- Extend 16 message words to the 80 words of the SHA-1 message schedule. -/
def sha1Extend (ws : Array Nat) : Array Nat :=
  (List.range 64).foldl (fun a j =>
    let i := j + 16
    a.push (rotl32 1 ((a.getD (i - 3) 0) ^^^ (a.getD (i - 8) 0) ^^^
                      (a.getD (i - 14) 0) ^^^ (a.getD (i - 16) 0)))) ws

/-- SHA-1 round function. -/
def sha1F (i b c d : Nat) : Nat :=
  if i < 20 then (b &&& c) ||| ((b ^^^ 4294967295) &&& d)
  else if i < 40 then b ^^^ c ^^^ d
  else if i < 60 then (b &&& c) ||| (b &&& d) ||| (c &&& d)
  else b ^^^ c ^^^ d

/-- SHA-1 round constants. -/
def sha1K (i : Nat) : Nat :=
  if i < 20 then 0x5A827999
  else if i < 40 then 0x6ED9EBA1
  else if i < 60 then 0x8F1BBCDC
  else 0xCA62C1D6

/-- One SHA-1 compression of a 64-byte block into the running state. -/
def sha1Compress (h : Nat × Nat × Nat × Nat × Nat) (block : List Nat) :
    Nat × Nat × Nat × Nat × Nat :=
  let ws := sha1Extend (Array.mk (bytesToWords block))
  let (h0, h1, h2, h3, h4) := h
  let step := fun (st : Nat × Nat × Nat × Nat × Nat) (i : Nat) =>
    let (a, b, c, d, e) := st
    (w32 (rotl32 5 a + sha1F i b c d + e + sha1K i + ws.getD i 0),
     a, rotl32 30 b, c, d)
  let (a, b, c, d, e) := (List.range 80).foldl step (h0, h1, h2, h3, h4)
  (w32 (h0 + a), w32 (h1 + b), w32 (h2 + c), w32 (h3 + d), w32 (h4 + e))

/-- SHA-1 of a byte list, as its 20-byte digest. -/
def sha1 (msg : List Nat) : List Nat :=
  let (h0, h1, h2, h3, h4) :=
    (chunks64 (sha1Pad msg)).foldl sha1Compress
      (0x67452301, 0xEFCDAB89, 0x98BADCFE, 0x10325476, 0xC3D2E1F0)
  beBytes4 h0 ++ beBytes4 h1 ++ beBytes4 h2 ++ beBytes4 h3 ++ beBytes4 h4

/-! ## HMAC-SHA1 (crypto/hmac, block size 64) -/

/-- HMAC-SHA1 of `msg` under `key`. -/
def hmacSha1 (key msg : List Nat) : List Nat :=
  let k0 := if key.length > 64 then sha1 key else key
  let k := k0 ++ List.replicate (64 - k0.length) 0
  sha1 ((k.map (fun b => b ^^^ 92)) ++ sha1 ((k.map (fun b => b ^^^ 54)) ++ msg))

/-! ## Hex encoding (encoding/hex, lowercase) -/

/-- Lowercase hex digit for a value below 16. -/
def hexDigitChar (n : Nat) : Char :=
  if n < 10 then Char.ofNat (48 + n) else Char.ofNat (87 + n)

/-- Lowercase hex encoding of a byte list. -/
def hexEncode (bs : List Nat) : String :=
  String.mk (bs.foldr (fun b acc => hexDigitChar (b / 16) :: hexDigitChar (b % 16) :: acc) [])

/-! ## Header canonicalization (net/textproto via http.CanonicalHeaderKey) -/

/-- Go `validHeaderFieldByte`: token characters of a MIME header key. -/
def isTokenChar (c : Char) : Bool :=
  c.isAlphanum || [33, 35, 36, 37, 38, 39, 42, 43, 45, 46, 94, 95, 96, 124, 126].contains c.toNat

/-- The canonicalization loop: uppercase at the start and after a hyphen,
lowercase elsewhere. -/
def canonicalChars : Bool → List Char → List Char
  | _, [] => []
  | upper, c :: rest =>
    let c2 := if upper then c.toUpper else c.toLower
    c2 :: canonicalChars (c2 = '-') rest

/-- Go `http.CanonicalHeaderKey`: canonicalize when every character is a
token character, otherwise return the key unchanged. -/
def canonicalHeaderKey (s : String) : String :=
  if s.data.all isTokenChar then String.mk (canonicalChars true s.data) else s

/-- Bytes of a Go string (`[]byte(s)`); codepoints, which agrees with UTF-8
on the ASCII strings compared here and is injective in general. -/
def strBytes (s : String) : List Nat := s.data.map Char.toNat

/-! ## Configuration constants (main.go lines 30-34) -/

def docsHasImpact : String := "docs/has-impact"

def docsNoImpact : String := "docs/no-impact"

def repoName : String := "vic"

def repoOwner : String := "vmware"

/-! ## Signature validation (main.go `validateHeaderSig`) -/

/-- The `hash.Hash` contract: `mac.Write` never returns an error, so the
error branch of `validateHeaderSig` is dead code. -/
def macWriteError : Option String := none

/-- The loop body of `validateHeaderSig` over the header entries: for the
first entry whose canonical key is `X-Hub-Signature`, a single value is
compared byte-wise (`hmac.Equal`) with `"sha1=" ++ hex(HMAC-SHA1)`; any
other value count logs `Got suspicious signature` and fails.  Returns the
`validated` flag together with the diagnostics written to standard error. -/
def validateHeaderSigLoop (secretToken body : List Nat) :
    List (String × List String) → Bool × List String
  | [] => (false, [])
  | (k, v) :: rest =>
    if canonicalHeaderKey k = "X-Hub-Signature" then
      match v with
      | [sigVal] =>
        match macWriteError with
        | some _ => (false, ["Failed to write request body to HMAC to calculate signature"])
        | none =>
          (strBytes sigVal == strBytes ("sha1=" ++ hexEncode (hmacSha1 secretToken body)), [])
      | _ => (false, ["Got suspicious signature"])
    else validateHeaderSigLoop secretToken body rest

/-- `validateHeaderSig(headers, body)` under the secret token. -/
def validateHeaderSig (secretToken : List Nat) (headers : List (String × List String))
    (body : List Nat) : Bool × List String :=
  validateHeaderSigLoop secretToken body headers

/-! ## Data model (go-github `Label`, `Issue`, `IssueEvent`) -/

/-- go-github `Label`: only the `Name *string` field is consumed. -/
structure Label where
  name : Option String
deriving DecidableEq, Repr

/-- `Label.GetName`: the empty string when the pointer is nil. -/
def Label.getName (l : Label) : String := l.name.getD ""

/-- go-github `Issue`: the fields this program consumes
(`Number *int`, `State *string`, `Labels []Label`). -/
structure Issue where
  number : Option Int
  state : Option String
  labels : List Label
deriving DecidableEq, Repr

/-- `Issue.GetNumber`: zero when the pointer is nil. -/
def Issue.getNumber (i : Issue) : Int := i.number.getD 0

/-- go-github `IssueEvent`: holds an optional `Issue`. -/
structure IssueEvent where
  issue : Option Issue
deriving DecidableEq, Repr

/-! ## Label policy (main.go `hasDocLabels`) -/

/-- `hasDocLabels`: scan the labels in order; true at the first whose name
equals one of the two doc-impact constants. -/
def hasDocLabels : List Label → Bool
  | [] => false
  | label :: rest =>
    let name := label.getName
    if name == docsHasImpact || name == docsNoImpact then true
    else hasDocLabels rest

/-! ## Issue reopener (main.go `reopenIssue`) -/

/-- A call made against the GitHub API. -/
inductive APICall where
  | createComment (owner repo : String) (number : Int) (body : String)
  | editIssue (owner repo : String) (number : Int) (state : Option String)
deriving DecidableEq, Repr

/-- Outcome oracle for the two remote calls `reopenIssue` can make. -/
structure APIBehavior where
  createCommentErr : Option String
  editErr : Option String
deriving Repr

/-- The fixed comment body (`fmt.Sprintf` at main.go line 72). -/
def commentBody : String :=
  "Please help keep our documentation up to date by adding either `" ++ docsNoImpact ++
  "` or `" ++ docsHasImpact ++
  "` as a label to this issue to notify our documentation authors as to whether or not this issue affects the documentation."

/-- `reopenIssue(issue)`: post the reminder comment, then edit the state to
`open`; fail fast on the first error.  Returns the error outcome and the
trace of remote calls attempted, in order. -/
def reopenIssue (api : APIBehavior) (issue : Issue) : Option String × List APICall :=
  let c := APICall.createComment repoOwner repoName issue.getNumber commentBody
  match api.createCommentErr with
  | some err => (some err, [c])
  | none =>
    let e := APICall.editIssue repoOwner repoName issue.getNumber (some "open")
    match api.editErr with
    | some err => (some err, [c, e])
    | none => (none, [c, e])

/-! ## Webhook receiver (main.go `receiver`) -/

/-- One inbound request, as the receiver consumes it: the raw header map,
the outcome of `ioutil.ReadAll(req.Body)`, and the outcome of the JSON
decode of the (rewound) body.  A decode can succeed with a nil event
(body `null`), hence the inner `Option`. -/
structure Request where
  headers : List (String × List String)
  bodyRead : Except String (List Nat)
  decodeResult : Except String (Option IssueEvent)

/-- Observable outcome of one receiver invocation: the explicit HTTP status
written (if any; the framework default applies otherwise), whether the JSON
decode step was reached, the issues `reopenIssue` was invoked on (in
order), the remote API calls made, and whether a nil-pointer dereference
panic occurred. -/
structure ReceiverResult where
  httpStatus : Option Nat
  decodeAttempted : Bool
  reopenedIssues : List Issue
  apiCalls : List APICall
  panicked : Bool
deriving Repr

/-- `receiver(w, req)`: read the body (400 on failure), validate the
signature (silent drop on failure), decode the event (drop on failure or
nil issue), and reopen a closed, unlabeled issue.  `event.Issue` on a nil
decoded event and `*event.Issue.State` on a nil state pointer are Go nil
dereferences, recorded as panics. -/
def receiver (secretToken : List Nat) (api : APIBehavior) (req : Request) : ReceiverResult :=
  match req.bodyRead with
  | .error _ =>
    { httpStatus := some 400, decodeAttempted := false, reopenedIssues := [],
      apiCalls := [], panicked := false }
  | .ok body =>
    if (validateHeaderSig secretToken req.headers body).fst = false then
      { httpStatus := none, decodeAttempted := false, reopenedIssues := [],
        apiCalls := [], panicked := false }
    else
      match req.decodeResult with
      | .error _ =>
        { httpStatus := none, decodeAttempted := true, reopenedIssues := [],
          apiCalls := [], panicked := false }
      | .ok none =>
        { httpStatus := none, decodeAttempted := true, reopenedIssues := [],
          apiCalls := [], panicked := true }
      | .ok (some event) =>
        match event.issue with
        | none =>
          { httpStatus := none, decodeAttempted := true, reopenedIssues := [],
            apiCalls := [], panicked := false }
        | some issue =>
          match issue.state with
          | none =>
            { httpStatus := none, decodeAttempted := true, reopenedIssues := [],
              apiCalls := [], panicked := true }
          | some st =>
            if st == "closed" && !hasDocLabels issue.labels then
              let r := reopenIssue api issue
              { httpStatus := none, decodeAttempted := true, reopenedIssues := [issue],
                apiCalls := r.snd, panicked := false }
            else
              { httpStatus := none, decodeAttempted := true, reopenedIssues := [],
                apiCalls := [], panicked := false }

/-! ## Concrete inputs used by witnesses and counterexamples -/

/-- A header carrying the honest signature for the empty secret and empty
body: `HMAC-SHA1("", "") = fbdb1d1b18aa6c08324b7d64b71fb76370690e1d`. -/
def sigHeaderVal : String := "sha1=fbdb1d1b18aa6c08324b7d64b71fb76370690e1d"

def okHeaders : List (String × List String) := [("X-Hub-Signature", [sigHeaderVal])]

/-- A closed, unlabeled issue. -/
def closedIssue : Issue := { number := some 7, state := some "closed", labels := [] }

/-- An open issue carrying a non-qualifying label. -/
def openIssue : Issue := { number := some 8, state := some "open", labels := [{ name := some "bug" }] }

/-- An issue whose `state` field is absent from the payload (nil pointer). -/
def noStateIssue : Issue := { number := some 9, state := none, labels := [] }

/-- A request that passes signature validation and decodes to `closedIssue`. -/
def reqClosed : Request :=
  { headers := okHeaders, bodyRead := .ok [],
    decodeResult := .ok (some { issue := some closedIssue }) }

/-- A request that passes signature validation and decodes to `noStateIssue`. -/
def reqNoState : Request :=
  { headers := okHeaders, bodyRead := .ok [],
    decodeResult := .ok (some { issue := some noStateIssue }) }

/-- An API oracle on which both remote calls succeed. -/
def apiOk : APIBehavior := { createCommentErr := none, editErr := none }

/-- An API oracle on which posting the comment fails. -/
def apiCommentFails : APIBehavior := { createCommentErr := some "boom", editErr := none }

section SigEval
set_option maxRecDepth 1000000
/-- The honest empty-secret, empty-body signature validates (computed by the
kernel through the concrete SHA-1 embedding). -/
theorem validateHeaderSig_okHeaders :
    (validateHeaderSig [] okHeaders []).fst = true := by decide
end SigEval

/-! ## Helper lemmas on the signature-validation loop -/

/-- When no header entry canonicalizes to `X-Hub-Signature`, validation
fails and writes no diagnostic. -/
theorem validateHeaderSigLoop_not_found (secret body : List Nat)
    (hs : List (String × List String))
    (h : ∀ p ∈ hs, canonicalHeaderKey p.1 ≠ "X-Hub-Signature") :
    validateHeaderSigLoop secret body hs = (false, []) := by
  induction hs with
  | nil => rfl
  | cons p rest ih =>
    obtain ⟨k, v⟩ := p
    have hk : canonicalHeaderKey k ≠ "X-Hub-Signature" := h (k, v) (List.mem_cons_self _ _)
    simp only [validateHeaderSigLoop, if_neg hk]
    exact ih fun q hq => h q (List.mem_cons_of_mem _ hq)

/-- Validation succeeds only when some header entry canonicalizing to
`X-Hub-Signature` holds exactly one value whose bytes equal
`"sha1=" ++ hex(HMAC-SHA1(secret, body))`. -/
theorem validateHeaderSigLoop_sound (secret body : List Nat)
    (hs : List (String × List String))
    (h : (validateHeaderSigLoop secret body hs).fst = true) :
    ∃ k s, (k, [s]) ∈ hs ∧ canonicalHeaderKey k = "X-Hub-Signature" ∧
      strBytes s = strBytes ("sha1=" ++ hexEncode (hmacSha1 secret body)) := by
  induction hs with
  | nil => simp [validateHeaderSigLoop] at h
  | cons p rest ih =>
    obtain ⟨k, v⟩ := p
    by_cases hk : canonicalHeaderKey k = "X-Hub-Signature"
    · match v with
      | [s] =>
        simp only [validateHeaderSigLoop, if_pos hk, macWriteError, beq_iff_eq] at h
        exact ⟨k, s, List.mem_cons_self _ _, hk, h⟩
      | [] => simp [validateHeaderSigLoop, if_pos hk] at h
      | a :: b :: t => simp [validateHeaderSigLoop, if_pos hk] at h
    · simp only [validateHeaderSigLoop, if_neg hk] at h
      obtain ⟨k', s, hm, hc, he⟩ := ih h
      exact ⟨k', s, List.mem_cons_of_mem _ hm, hc, he⟩

/-- A diagnostic is written only when some header entry canonicalizing to
`X-Hub-Signature` carries a value count different from one. -/
theorem validateHeaderSigLoop_log (secret body : List Nat)
    (hs : List (String × List String))
    (h : (validateHeaderSigLoop secret body hs).snd ≠ []) :
    ∃ p ∈ hs, canonicalHeaderKey p.1 = "X-Hub-Signature" ∧ p.2.length ≠ 1 := by
  induction hs with
  | nil => simp [validateHeaderSigLoop] at h
  | cons p rest ih =>
    obtain ⟨k, v⟩ := p
    by_cases hk : canonicalHeaderKey k = "X-Hub-Signature"
    · match v with
      | [s] => simp [validateHeaderSigLoop, if_pos hk, macWriteError] at h
      | [] => exact ⟨(k, []), List.mem_cons_self _ _, hk, by simp⟩
      | a :: b :: t => exact ⟨(k, a :: b :: t), List.mem_cons_self _ _, hk, by simp⟩
    · simp only [validateHeaderSigLoop, if_neg hk] at h
      obtain ⟨q, hm, hq⟩ := ih h
      exact ⟨q, List.mem_cons_of_mem _ hm, hq⟩

/-- A first header entry canonicalizing to `X-Hub-Signature` whose single
value is the honest signature string validates. -/
theorem validateHeaderSigLoop_honest (secret body : List Nat) (k : String)
    (rest : List (String × List String))
    (hk : canonicalHeaderKey k = "X-Hub-Signature") :
    (validateHeaderSigLoop secret body
      ((k, ["sha1=" ++ hexEncode (hmacSha1 secret body)]) :: rest)).fst = true := by
  simp [validateHeaderSigLoop, if_pos hk, macWriteError]

/-! ## Auxiliary results on the validator (completeness and rejection) -/

/-- The validator accepts the honest signature header: a single value equal
to `"sha1="` followed by the lowercase hex HMAC-SHA1 of the body. -/
theorem validateHeaderSig_accepts_honest_signature (secret body : List Nat)
    (k : String) (rest : List (String × List String))
    (hk : canonicalHeaderKey k = "X-Hub-Signature") :
    (validateHeaderSig secret
      ((k, ["sha1=" ++ hexEncode (hmacSha1 secret body)]) :: rest) body).fst = true :=
  validateHeaderSigLoop_honest secret body k rest hk

/-- The validator rejects any header whose single value differs bytewise
from the honest signature string (in particular, any bit-flipped copy). -/
theorem validateHeaderSig_rejects_altered_signature (secret body : List Nat)
    (k s : String) (hk : canonicalHeaderKey k = "X-Hub-Signature")
    (hne : strBytes s ≠ strBytes ("sha1=" ++ hexEncode (hmacSha1 secret body))) :
    (validateHeaderSig secret [(k, [s])] body).fst = false := by
  simp [validateHeaderSig, validateHeaderSigLoop, if_pos hk, macWriteError, hne]

/-! ## Claim theorems -/

/-- C3: the label policy returns true iff some label name case-sensitively
equals `docs/has-impact` or `docs/no-impact`; on the empty collection it
returns false.  (It is a plain function of its argument, hence pure.) -/
theorem hasDocLabels_iff_doc_label_present (labels : List Label) :
    (hasDocLabels labels = true ↔
      ∃ l ∈ labels, l.getName = docsHasImpact ∨ l.getName = docsNoImpact) ∧
    hasDocLabels [] = false := by
  refine ⟨?_, rfl⟩
  induction labels with
  | nil => simp [hasDocLabels]
  | cons l rest ih =>
    by_cases h : l.getName == docsHasImpact || l.getName == docsNoImpact
    · simp only [hasDocLabels, if_pos h]
      simp only [Bool.or_eq_true, beq_iff_eq] at h
      simp [h]
    · simp only [hasDocLabels, if_neg h]
      simp only [Bool.or_eq_true, beq_iff_eq, not_or] at h
      simp [ih, h.1, h.2]

/-- C6: when posting the comment fails, `reopenIssue` returns that error and
the trace holds only the comment call: the state edit is never attempted. -/
theorem reopenIssue_comment_failure_stops (api : APIBehavior) (issue : Issue)
    (err : String) (h : api.createCommentErr = some err) :
    reopenIssue api issue =
      (some err, [APICall.createComment repoOwner repoName issue.getNumber commentBody]) := by
  simp [reopenIssue, h]

/-- C6 witness: on the oracle whose comment post fails with "boom",
`reopenIssue` returns the error and only the comment call. -/
theorem reopenIssue_comment_failure_stops_witness :
    apiCommentFails.createCommentErr = some "boom" ∧
    reopenIssue apiCommentFails closedIssue =
      (some "boom", [APICall.createComment repoOwner repoName closedIssue.getNumber commentBody]) :=
  ⟨rfl, reopenIssue_comment_failure_stops apiCommentFails closedIssue "boom" rfl⟩

/-- C7: the validator returns true only when some header entry
canonicalizing to `X-Hub-Signature` carries exactly one value whose bytes
match the computed signature string; hence it returns false whenever the
header is absent, has zero or multiple values, or the value mismatches. -/
theorem validateHeaderSig_false_unless_single_matching_value
    (secret body : List Nat) (hs : List (String × List String))
    (h : (validateHeaderSig secret hs body).fst = true) :
    ∃ k s, (k, [s]) ∈ hs ∧ canonicalHeaderKey k = "X-Hub-Signature" ∧
      strBytes s = strBytes ("sha1=" ++ hexEncode (hmacSha1 secret body)) :=
  validateHeaderSigLoop_sound secret body hs h

/-- C7 witness: on the honest header the validator returns true, and the
matching entry is exhibited. -/
theorem validateHeaderSig_false_unless_single_matching_value_witness :
    (validateHeaderSig [] okHeaders []).fst = true ∧
    ∃ k s, (k, [s]) ∈ okHeaders ∧ canonicalHeaderKey k = "X-Hub-Signature" ∧
      strBytes s = strBytes ("sha1=" ++ hexEncode (hmacSha1 [] [])) :=
  ⟨validateHeaderSig_okHeaders,
   validateHeaderSig_false_unless_single_matching_value [] [] okHeaders
     validateHeaderSig_okHeaders⟩

/-- C10 counterexample: with no headers at all the `X-Hub-Signature` header
is missing, yet the validator writes no diagnostic to standard error (and
returns false): the claimed missing-header diagnostic does not exist. -/
theorem validateHeaderSig_absent_header_logs_nothing :
    validateHeaderSig [] [] [] = (false, []) := rfl

/-- C10 amended: the validator writes a stderr diagnostic only when a header
entry canonicalizing to `X-Hub-Signature` is present with a value count
different from one (an HMAC write failure cannot occur); in particular an
absent header produces no diagnostic. -/
theorem validateHeaderSig_diagnostic_only_on_bad_value_count
    (secret body : List Nat) (hs : List (String × List String))
    (h : (validateHeaderSig secret hs body).snd ≠ []) :
    ∃ p ∈ hs, canonicalHeaderKey p.1 = "X-Hub-Signature" ∧ p.2.length ≠ 1 :=
  validateHeaderSigLoop_log secret body hs h

/-- C10 amended witness: a present `X-Hub-Signature` entry with zero values
produces the diagnostic, and the offending entry is exhibited. -/
theorem validateHeaderSig_diagnostic_only_on_bad_value_count_witness :
    (validateHeaderSig [] [("X-Hub-Signature", [])] []).snd ≠ [] ∧
    ∃ p ∈ [("X-Hub-Signature", ([] : List String))],
      canonicalHeaderKey p.1 = "X-Hub-Signature" ∧ p.2.length ≠ 1 :=
  ⟨by decide,
   validateHeaderSig_diagnostic_only_on_bad_value_count [] [] [("X-Hub-Signature", [])]
     (by decide)⟩

/-- A request carrying no `X-Hub-Signature` header at all. -/
def reqNoSigHeader : Request :=
  { headers := [("Content-Type", ["application/json"])], bodyRead := .ok [],
    decodeResult := .error "never reached" }

/-- A request whose body read fails. -/
def reqBadBody : Request :=
  { headers := [], bodyRead := .error "read error", decodeResult := .ok none }

/-- C1: on a request whose body reads, whose signature validates and whose
body decodes to an event with a non-null issue, `reopenIssue` is invoked iff
the issue state equals `closed` and the label policy returns false (so never
when the state is `open`, whatever the labels). -/
theorem receiver_invokes_reopener_iff_closed_unlabeled
    (secret : List Nat) (api : APIBehavior) (req : Request)
    (body : List Nat) (ev : IssueEvent) (iss : Issue)
    (hbody : req.bodyRead = .ok body)
    (hsig : (validateHeaderSig secret req.headers body).fst = true)
    (hdec : req.decodeResult = .ok (some ev))
    (hiss : ev.issue = some iss) :
    ((receiver secret api req).reopenedIssues ≠ [] ↔
      iss.state = some "closed" ∧ hasDocLabels iss.labels = false) := by
  simp only [receiver, hbody, hsig, hdec, hiss]
  cases hstate : iss.state with
  | none => simp
  | some st =>
    by_cases hcl : st = "closed"
    · subst hcl
      by_cases hdl : hasDocLabels iss.labels
      · simp [hdl]
      · simp [hdl]
    · simp [hcl]

/-- C1 witness: a validated request holding a closed unlabeled issue, on
which the reopener is invoked and the iff evaluates truly. -/
theorem receiver_invokes_reopener_iff_closed_unlabeled_witness :
    reqClosed.bodyRead = .ok [] ∧
    (validateHeaderSig [] reqClosed.headers []).fst = true ∧
    reqClosed.decodeResult = .ok (some { issue := some closedIssue }) ∧
    ({ issue := some closedIssue } : IssueEvent).issue = some closedIssue ∧
    ((receiver [] apiOk reqClosed).reopenedIssues ≠ [] ↔
      closedIssue.state = some "closed" ∧ hasDocLabels closedIssue.labels = false) :=
  ⟨rfl, validateHeaderSig_okHeaders, rfl, rfl,
   receiver_invokes_reopener_iff_closed_unlabeled [] apiOk reqClosed [] _ closedIssue rfl
     validateHeaderSig_okHeaders rfl rfl⟩

/-- C4 counterexample: a validated request whose decoded event has a
non-null issue but an absent `state` field drives `*event.Issue.State`
into a nil-pointer dereference: the reopen-condition evaluation is not
total, contrary to the claim. -/
theorem receiver_panics_on_absent_state :
    (receiver [] apiOk reqNoState).panicked = true := by
  simp [receiver, reqNoState, noStateIssue, validateHeaderSig_okHeaders]

/-- C4 amended: the reopen-condition evaluation is total whenever the
decoded issue's `state` field is present; with the field absent the state
dereference panics (see the counterexample). -/
theorem receiver_reopen_check_total_when_state_present
    (secret : List Nat) (api : APIBehavior) (req : Request)
    (body : List Nat) (ev : IssueEvent) (iss : Issue) (st : String)
    (hbody : req.bodyRead = .ok body)
    (hsig : (validateHeaderSig secret req.headers body).fst = true)
    (hdec : req.decodeResult = .ok (some ev))
    (hiss : ev.issue = some iss)
    (hstate : iss.state = some st) :
    (receiver secret api req).panicked = false := by
  simp only [receiver, hbody, hsig, hdec, hiss, hstate]
  split
  · rfl
  · split <;> rfl

/-- C4 amended witness: on the validated closed-issue request (state field
present) the receiver completes without a panic. -/
theorem receiver_reopen_check_total_when_state_present_witness :
    reqClosed.bodyRead = .ok [] ∧
    (validateHeaderSig [] reqClosed.headers []).fst = true ∧
    reqClosed.decodeResult = .ok (some { issue := some closedIssue }) ∧
    ({ issue := some closedIssue } : IssueEvent).issue = some closedIssue ∧
    closedIssue.state = some "closed" ∧
    (receiver [] apiOk reqClosed).panicked = false :=
  ⟨rfl, validateHeaderSig_okHeaders, rfl, rfl, rfl,
   receiver_reopen_check_total_when_state_present [] apiOk reqClosed [] _ closedIssue
     "closed" rfl validateHeaderSig_okHeaders rfl rfl rfl⟩

/-- C5: a request none of whose header keys canonicalizes to
`X-Hub-Signature` is dropped before JSON decoding: the decode step is never
reached. -/
theorem receiver_missing_sig_header_skips_decode
    (secret : List Nat) (api : APIBehavior) (req : Request)
    (h : ∀ p ∈ req.headers, canonicalHeaderKey p.1 ≠ "X-Hub-Signature") :
    (receiver secret api req).decodeAttempted = false := by
  cases hb : req.bodyRead with
  | error e => simp [receiver, hb]
  | ok body =>
    have hv : validateHeaderSig secret req.headers body = (false, []) :=
      validateHeaderSigLoop_not_found secret body req.headers h
    simp [receiver, hb, hv]

/-- C5 witness: a request with only a `Content-Type` header never reaches
the decode step. -/
theorem receiver_missing_sig_header_skips_decode_witness :
    (∀ p ∈ reqNoSigHeader.headers, canonicalHeaderKey p.1 ≠ "X-Hub-Signature") ∧
    (receiver [] apiOk reqNoSigHeader).decodeAttempted = false :=
  ⟨by decide, receiver_missing_sig_header_skips_decode [] apiOk reqNoSigHeader (by decide)⟩

/-- C8: when the body read fails the receiver sets HTTP status 400 and
halts: the decode step is never reached, no issue is reopened and no remote
call is made. -/
theorem receiver_body_read_failure_400
    (secret : List Nat) (api : APIBehavior) (req : Request) (e : String)
    (h : req.bodyRead = .error e) :
    (receiver secret api req).httpStatus = some 400 ∧
    (receiver secret api req).decodeAttempted = false ∧
    (receiver secret api req).reopenedIssues = [] ∧
    (receiver secret api req).apiCalls = [] := by
  simp [receiver, h]

/-- C8 witness: a request whose body read fails yields exactly the 400
outcome with no further processing. -/
theorem receiver_body_read_failure_400_witness :
    reqBadBody.bodyRead = .error "read error" ∧
    (receiver [] apiOk reqBadBody).httpStatus = some 400 ∧
    (receiver [] apiOk reqBadBody).decodeAttempted = false ∧
    (receiver [] apiOk reqBadBody).reopenedIssues = [] ∧
    (receiver [] apiOk reqBadBody).apiCalls = [] :=
  ⟨rfl,
   (receiver_body_read_failure_400 [] apiOk reqBadBody "read error" rfl).1,
   (receiver_body_read_failure_400 [] apiOk reqBadBody "read error" rfl).2.1,
   (receiver_body_read_failure_400 [] apiOk reqBadBody "read error" rfl).2.2.1,
   (receiver_body_read_failure_400 [] apiOk reqBadBody "read error" rfl).2.2.2⟩

/-- C9: any single receiver invocation invokes the reopener at most once;
and a validated request decoding to an issue with state `closed` and an
empty label list invokes it exactly once. -/
theorem receiver_reopens_at_most_once
    (secret : List Nat) (api : APIBehavior) (req : Request) :
    (receiver secret api req).reopenedIssues.length ≤ 1 ∧
    (∀ body ev iss, req.bodyRead = .ok body →
      (validateHeaderSig secret req.headers body).fst = true →
      req.decodeResult = .ok (some ev) → ev.issue = some iss →
      iss.state = some "closed" → iss.labels = [] →
      (receiver secret api req).reopenedIssues.length = 1) := by
  constructor
  · unfold receiver
    repeat' split
    all_goals simp
  · intro body ev iss hbody hsig hdec hiss hstate hlabels
    simp [receiver, hbody, hsig, hdec, hiss, hstate, hlabels, hasDocLabels]

/-- C9 witness: on the validated closed-issue request with no labels the
reopener runs exactly once. -/
theorem receiver_reopens_at_most_once_witness :
    closedIssue.state = some "closed" ∧ closedIssue.labels = [] ∧
    (receiver [] apiOk reqClosed).reopenedIssues.length = 1 :=
  ⟨rfl, rfl,
   (receiver_reopens_at_most_once [] apiOk reqClosed).2 [] { issue := some closedIssue }
     closedIssue rfl validateHeaderSig_okHeaders rfl rfl rfl rfl⟩

end EnforceDocLabels
